import Mathlib

/-!
Shallow embedding of the `systemeio-publisher` repository
(`src/agent1_core.py` and `src/firestore_client.py`).

The Python script is straight-line, effectful code.  We embed it as
trace-producing functions: every observable action (a `print`, a call of
`_update_page`, a call into the external `shop_renderer` collaborator, an
HTTP request issued by `requests.put`) is an `Event`; a Python exception
is an `Except.error`.  External effects — the renderer's return values and
the HTTP layer's responses — are oracles passed in as arguments, so the
theorems quantify over every possible behaviour of the outside world.

Python truthiness of an optional environment string (`None` or `""` is
falsy) is `falsy : Option String → Bool`.  `json.dumps` on the one-key
dict `{"content": html}` (with its default `ensure_ascii=True` escaping
and default separators) is `jsonDumpsContent`.
-/

/-- A Python exception value: either a `RuntimeError` (raised by the
startup checks) or any other exception, carrying its class name and
message. `PyExn.str` is Python's `str(e)`. -/
inductive PyExn where
  | runtimeError (msg : String)
  | exn (name : String) (msg : String)
deriving DecidableEq

def PyExn.str : PyExn → String
  | .runtimeError m => m
  | .exn _ m => m

/-- An HTTP response as seen by the script: `resp.status_code` and `resp.text`. -/
structure Response where
  status_code : Nat
  text : String
deriving DecidableEq

/-- The request `requests.put(url, headers=..., data=..., timeout=60)` issues:
method, URL, header list (in insertion order of the Python dict), raw body
string, and timeout in seconds. -/
structure HttpRequest where
  method : String
  url : String
  headers : List (String × String)
  body : String
  timeout : Nat
deriving DecidableEq

/-- One observable action of the script. -/
inductive Event where
  | print (msg : String)
  | render (name : String)
  | call (page_id : Option String)
  | request (req : HttpRequest)
deriving DecidableEq

/-- The HTTP requests occurring in a trace, in order. -/
def requestsOf (tr : List Event) : List HttpRequest :=
  tr.filterMap fun e =>
    match e with
    | Event.request r => some r
    | _ => none

/-- The `_update_page` invocations occurring in a trace (each recorded with
the page id it was handed), in order. -/
def callsOf (tr : List Event) : List (Option String) :=
  tr.filterMap fun e =>
    match e with
    | Event.call p => some p
    | _ => none

/-- The console prints occurring in a trace, in order. -/
def printsOf (tr : List Event) : List String :=
  tr.filterMap fun e =>
    match e with
    | Event.print s => some s
    | _ => none

/-- The renderer invocations occurring in a trace (by function name), in
order. -/
def rendersOf (tr : List Event) : List String :=
  tr.filterMap fun e =>
    match e with
    | Event.render n => some n
    | _ => none

/-- Python truthiness of an optional string: `None` and `""` are falsy. -/
def falsy : Option String → Bool
  | none => true
  | some s => s.isEmpty

/-- Lowercase hexadecimal digit, as CPython's `json` encoder emits. -/
def hexDigit (n : Nat) : Char :=
  if n < 10 then Char.ofNat (48 + n) else Char.ofNat (87 + n)

/-- Four lowercase hex digits, most significant first. -/
def hex4 (n : Nat) : String :=
  String.mk [hexDigit (n / 4096 % 16), hexDigit (n / 256 % 16),
             hexDigit (n / 16 % 16), hexDigit (n % 16)]

/-- How CPython's `json.dumps` (default `ensure_ascii=True`) encodes one
character of a string: `\` and `"` get a backslash, the named control
escapes are used for `\b \t \n \f \r`, printable ASCII (U+0020–U+007E) is
kept verbatim, everything else becomes `\uXXXX` (a surrogate pair above
U+FFFF). -/
def jsonEscapeChar (c : Char) : String :=
  if c = '\\' then "\\\\"
  else if c = '"' then "\\\""
  else if c = '\x08' then "\\b"
  else if c = '\t' then "\\t"
  else if c = '\n' then "\\n"
  else if c = '\x0c' then "\\f"
  else if c = '\r' then "\\r"
  else if 0x20 ≤ c.toNat ∧ c.toNat ≤ 0x7e then String.mk [c]
  else if c.toNat < 0x10000 then "\\u" ++ hex4 c.toNat
  else
    "\\u" ++ hex4 (0xd800 + (c.toNat - 0x10000) / 0x400) ++
    "\\u" ++ hex4 (0xdc00 + (c.toNat - 0x10000) % 0x400)

/-- `json.dumps` of a Python string. -/
def jsonEncodeString (s : String) : String :=
  "\"" ++ String.join (s.data.map jsonEscapeChar) ++ "\""

/-- `json.dumps({"content": html})` with the default separators:
`{"content": <encoded html>}`. -/
def jsonDumpsContent (html : String) : String :=
  "\x7b\"content\": " ++ jsonEncodeString html ++ "\x7d"

/-- The environment variables the script reads (`os.getenv` yields `none`
when a variable is unset). The three `*_TEMPLATE_ID` variables the module
also reads are never used by any code under `src/` and are omitted. -/
structure Env where
  SERVICE_ACCOUNT_PATH : Option String
  SYSTEME_API_KEY : Option String
  SYSTEME_API_BASE : Option String
  SYSTEME_WEBSITE_ID : Option String
  SYSTEME_HOME_PAGE_ID : Option String
  SYSTEME_CATEGORIES_PAGE_ID : Option String
  SYSTEME_PRODUCTS_PAGE_ID : Option String
  SYSTEME_BUNDLES_PAGE_ID : Option String
  SYSTEME_SEARCH_PAGE_ID : Option String
  SYSTEME_CONTACT_PAGE_ID : Option String
  SYSTEME_TERMS_PAGE_ID : Option String
  SYSTEME_PRIVACY_PAGE_ID : Option String

/-- The module-level configuration after a successful import of
`agent1_core`. -/
structure Config where
  systeme_api_key : String
  systeme_api_base : String
  systeme_website_id : String
  home_page_id : Option String
  categories_page_id : Option String
  products_page_id : Option String
  bundles_page_id : Option String
  search_page_id : Option String
  contact_page_id : Option String
  terms_page_id : Option String
  privacy_page_id : Option String

/-- `_systeme_headers()`: the header dict, in insertion order. -/
def systeme_headers (cfg : Config) : List (String × String) :=
  [("Content-Type", "application/json"), ("X-API-Key", cfg.systeme_api_key)]

/-- The request `_update_page` builds for a (truthy) page id `pid` and an
HTML string: `PUT {base}/sites/{website_id}/pages/{pid}` with body
`json.dumps({"content": html})` and `timeout=60`. -/
def page_put_request (cfg : Config) (pid : String) (html : String) : HttpRequest :=
  { method := "PUT"
    url := cfg.systeme_api_base ++ "/sites/" ++ cfg.systeme_website_id ++ "/pages/" ++ pid
    headers := systeme_headers cfg
    body := jsonDumpsContent html
    timeout := 60 }

def skipMsg : String := "[AGENT 01] Skipping page update (no page_id)."

def updatedMsg (pid : String) : String :=
  "[AGENT 01] Updated page " ++ pid ++ " successfully."

def failedMsg (pid : String) (resp : Response) : String :=
  "[AGENT 01] Failed to update page " ++ pid ++ ". Status: " ++
    toString resp.status_code ++ ", Body: " ++ resp.text

def errorMsg (pid : String) (e : PyExn) : String :=
  "[AGENT 01] ERROR updating page " ++ pid ++ ": " ++ e.str

/-- `_update_page(page_id, html)`.  The `http` oracle is the behaviour of
`requests.put`: it either returns a response or raises.  The falsy-id
branch skips with a log line; otherwise the request is issued inside
`try/except`, a 2xx status logs success, any other status logs failure,
and a raised exception is caught and logged — the function always returns
normally. -/
def update_page (cfg : Config) (http : HttpRequest → Except PyExn Response)
    (page_id : Option String) (html : String) : List Event × Except PyExn Unit :=
  if falsy page_id then
    ([Event.call page_id, Event.print skipMsg], Except.ok ())
  else
    let pid := page_id.getD ""
    let req := page_put_request cfg pid html
    match http req with
    | Except.ok resp =>
      if 200 ≤ resp.status_code ∧ resp.status_code < 300 then
        ([Event.call page_id, Event.request req, Event.print (updatedMsg pid)], Except.ok ())
      else
        ([Event.call page_id, Event.request req, Event.print (failedMsg pid resp)], Except.ok ())
    | Except.error e =>
      ([Event.call page_id, Event.request req, Event.print (errorMsg pid e)], Except.ok ())

/-- The external `shop_renderer` collaborator: each rendering function
either returns an HTML snippet or raises. -/
structure Renderer where
  get_featured_categories_html : Except PyExn String
  get_featured_products_html : Except PyExn String
  get_featured_bundles_html : Except PyExn String
  get_all_categories_html : Except PyExn String
  get_bundles_page_html : Except PyExn String

/-- The f-string template of `_build_home_page_html`, with the three
rendered snippets substituted at their interpolation points. -/
def homeHtmlTemplate (fc fp fb : String) : String :=
  "\n<div class=\"husin-home\">\n  <section class=\"hero\">\n    <h1>HUSIN — Curated Deals in Saudi Arabia</h1>\n    <p>Exclusive products, hot offers, and premium bundles. All prices in Saudi Riyal (SAR).</p>\n  </section>\n\n  <section class=\"section-block\">\n    <h2>Featured Categories</h2>\n    <div class=\"card-grid\">\n      " ++ fc ++ "\n    </div>\n  </section>\n\n  <section class=\"section-block\">\n    <h2>Featured Products</h2>\n    <div class=\"card-grid\">\n      " ++ fp ++ "\n    </div>\n  </section>\n\n  <section class=\"section-block\">\n    <h2>Featured Bundles</h2>\n    <div class=\"card-grid\">\n      " ++ fb ++ "\n    </div>\n  </section>\n</div>\n"

/-- The f-string template of `_build_categories_page_html`. -/
def categoriesHtmlTemplate (ch : String) : String :=
  "\n<div class=\"husin-categories\">\n  <h1>All Categories</h1>\n  <div class=\"card-grid\">\n    " ++ ch ++ "\n  </div>\n</div>\n"

/-- The constant string `_build_products_page_html` returns. -/
def products_page_html : String :=
  "\n<div class=\"husin-products\">\n  <h1>Our Products</h1>\n  <p>Browse curated products approved by HUSIN for quality, margin, and reliability.</p>\n</div>\n"

/-- The f-string template of `_build_bundles_page_html`. -/
def bundlesHtmlTemplate (bh : String) : String :=
  "\n<div class=\"husin-bundles\">\n  <h1>Bundles</h1>\n  <p>Save more with curated product bundles.</p>\n  <div class=\"card-grid\">\n    " ++ bh ++ "\n  </div>\n</div>\n"

/-- The constant string `_build_search_page_html` returns. -/
def search_page_html : String :=
  "\n<div class=\"husin-search\">\n  <h1>Search Results</h1>\n  <div id=\"husin-search-results\">\n    <!-- Agent 1 renders search results server-side if needed -->\n  </div>\n</div>\n"

/-- `_build_static_page_html(title, body)`. -/
def build_static_page_html (title body : String) : String :=
  "\n<div class=\"husin-static\">\n  <h1>" ++ title ++ "</h1>\n  <p>" ++ body ++ "</p>\n</div>\n"

/-- `_build_home_page_html()`: three renderer calls in order, then the
template; a raised exception propagates after the calls made so far. -/
def build_home_page_html (r : Renderer) : List Event × Except PyExn String :=
  match r.get_featured_categories_html with
  | Except.error e => ([Event.render "get_featured_categories_html"], Except.error e)
  | Except.ok fc =>
    match r.get_featured_products_html with
    | Except.error e =>
      ([Event.render "get_featured_categories_html",
        Event.render "get_featured_products_html"], Except.error e)
    | Except.ok fp =>
      match r.get_featured_bundles_html with
      | Except.error e =>
        ([Event.render "get_featured_categories_html",
          Event.render "get_featured_products_html",
          Event.render "get_featured_bundles_html"], Except.error e)
      | Except.ok fb =>
        ([Event.render "get_featured_categories_html",
          Event.render "get_featured_products_html",
          Event.render "get_featured_bundles_html"],
         Except.ok (homeHtmlTemplate fc fp fb))

/-- `_build_categories_page_html()`. -/
def build_categories_page_html (r : Renderer) : List Event × Except PyExn String :=
  match r.get_all_categories_html with
  | Except.error e => ([Event.render "get_all_categories_html"], Except.error e)
  | Except.ok ch => ([Event.render "get_all_categories_html"], Except.ok (categoriesHtmlTemplate ch))

/-- `_build_bundles_page_html()`. -/
def build_bundles_page_html (r : Renderer) : List Event × Except PyExn String :=
  match r.get_bundles_page_html with
  | Except.error e => ([Event.render "get_bundles_page_html"], Except.error e)
  | Except.ok bh => ([Event.render "get_bundles_page_html"], Except.ok (bundlesHtmlTemplate bh))

/-- Sequencing of two trace-producing, possibly-raising steps: if the
first raises, its trace is kept and the exception propagates; otherwise
the continuation runs and the traces concatenate. -/
def seqE {α β : Type} (step : List Event × Except PyExn α)
    (k : α → List Event × Except PyExn β) : List Event × Except PyExn β :=
  match step.2 with
  | Except.error e => (step.1, Except.error e)
  | Except.ok a => (step.1 ++ (k a).1, (k a).2)

def publishStartMsg : String := ">> [AGENT 01] Publishing approved content to Systeme.io..."

def publishCompleteMsg : String := ">> [AGENT 01] Publish cycle complete."

def contactBody : String :=
  "For inquiries, please reach out via the contact form on this page."

def termsBody : String :=
  "These are the terms and conditions for using HUSIN services."

def privacyBody : String :=
  "We respect your privacy and handle your data with care."

/-- The `if SYSTEME_CONTACT_PAGE_ID:` block of `publish_all`. -/
def contactStep (cfg : Config) (http : HttpRequest → Except PyExn Response) :
    List Event × Except PyExn Unit :=
  if falsy cfg.contact_page_id then ([], Except.ok ())
  else update_page cfg http cfg.contact_page_id (build_static_page_html "Contact" contactBody)

/-- The `if SYSTEME_TERMS_PAGE_ID:` block of `publish_all`. -/
def termsStep (cfg : Config) (http : HttpRequest → Except PyExn Response) :
    List Event × Except PyExn Unit :=
  if falsy cfg.terms_page_id then ([], Except.ok ())
  else update_page cfg http cfg.terms_page_id
    (build_static_page_html "Terms & Conditions" termsBody)

/-- The `if SYSTEME_PRIVACY_PAGE_ID:` block of `publish_all`. -/
def privacyStep (cfg : Config) (http : HttpRequest → Except PyExn Response) :
    List Event × Except PyExn Unit :=
  if falsy cfg.privacy_page_id then ([], Except.ok ())
  else update_page cfg http cfg.privacy_page_id
    (build_static_page_html "Privacy Policy" privacyBody)

/-- `publish_all()`: banner print, then for each logical page in order —
home, categories, products index, bundles, search, and the three guarded
static pages — build the HTML and call `_update_page`, then the completion
print.  Any exception escaping a build step aborts the rest. -/
def publish_all (cfg : Config) (r : Renderer)
    (http : HttpRequest → Except PyExn Response) : List Event × Except PyExn Unit :=
  seqE ([Event.print publishStartMsg], Except.ok ()) fun _ =>
  seqE (build_home_page_html r) fun home_html =>
  seqE (update_page cfg http cfg.home_page_id home_html) fun _ =>
  seqE (build_categories_page_html r) fun categories_html =>
  seqE (update_page cfg http cfg.categories_page_id categories_html) fun _ =>
  seqE (update_page cfg http cfg.products_page_id products_page_html) fun _ =>
  seqE (build_bundles_page_html r) fun bundles_html =>
  seqE (update_page cfg http cfg.bundles_page_id bundles_html) fun _ =>
  seqE (update_page cfg http cfg.search_page_id search_page_html) fun _ =>
  seqE (contactStep cfg http) fun _ =>
  seqE (termsStep cfg http) fun _ =>
  seqE (privacyStep cfg http) fun _ =>
  ([Event.print publishCompleteMsg], Except.ok ())

def defaultServiceAccountPath : String :=
  "/home/HUSINPY/Husin_Network/Keys/service_account.json"

/-- `FirestoreClient.__init__(service_account_path)` up to the credential
check: a falsy argument falls back to the environment variable (with the
hard-coded default), and a still-falsy or non-existing path raises
`RuntimeError`.  `pathExists` is the behaviour of `os.path.exists`. -/
def firestoreClient_init (service_account_path : Option String) (env : Env)
    (pathExists : String → Bool) : Except PyExn Unit :=
  let sap : String :=
    match service_account_path with
    | none => env.SERVICE_ACCOUNT_PATH.getD defaultServiceAccountPath
    | some s => if s.isEmpty then env.SERVICE_ACCOUNT_PATH.getD defaultServiceAccountPath else s
  if sap.isEmpty || !pathExists sap then
    Except.error (PyExn.runtimeError ("Service account file not found: " ++ sap))
  else
    Except.ok ()

/-- Importing `agent1_core`: read the environment, raise
`RuntimeError("Systeme.io env vars missing")` when the API key or the
website id is falsy, then construct the `FirestoreClient` (which raises on
a missing credential file), and finally expose the module configuration. -/
def module_init (env : Env) (pathExists : String → Bool) : Except PyExn Config :=
  if falsy env.SYSTEME_API_KEY || falsy env.SYSTEME_WEBSITE_ID then
    Except.error (PyExn.runtimeError "Systeme.io env vars missing")
  else
    match firestoreClient_init
        (some (env.SERVICE_ACCOUNT_PATH.getD defaultServiceAccountPath)) env pathExists with
    | Except.error e => Except.error e
    | Except.ok _ =>
      Except.ok
        { systeme_api_key := env.SYSTEME_API_KEY.getD ""
          systeme_api_base := env.SYSTEME_API_BASE.getD "https://api.systeme.io"
          systeme_website_id := env.SYSTEME_WEBSITE_ID.getD ""
          home_page_id := env.SYSTEME_HOME_PAGE_ID
          categories_page_id := env.SYSTEME_CATEGORIES_PAGE_ID
          products_page_id := env.SYSTEME_PRODUCTS_PAGE_ID
          bundles_page_id := env.SYSTEME_BUNDLES_PAGE_ID
          search_page_id := env.SYSTEME_SEARCH_PAGE_ID
          contact_page_id := env.SYSTEME_CONTACT_PAGE_ID
          terms_page_id := env.SYSTEME_TERMS_PAGE_ID
          privacy_page_id := env.SYSTEME_PRIVACY_PAGE_ID }

/-- Running the script: the import-time initialization followed by one
`publish_all()` cycle.  When the import raises, nothing has been printed,
no page has been built and no request has been issued — the trace is
empty. -/
def run_publisher (env : Env) (pathExists : String → Bool) (r : Renderer)
    (http : HttpRequest → Except PyExn Response) : List Event × Except PyExn Unit :=
  match module_init env pathExists with
  | Except.error e => ([], Except.error e)
  | Except.ok cfg => publish_all cfg r http

/-! ### Concrete fixtures used to instantiate the theorems -/

/-- A fully configured deployment with the contact page enabled, the terms
page unset and the privacy page set to the empty string. -/
def cfgW : Config :=
  { systeme_api_key := "k", systeme_api_base := "https://api.systeme.io"
    systeme_website_id := "w"
    home_page_id := some "h1", categories_page_id := some "c1"
    products_page_id := some "p1", bundles_page_id := some "b1"
    search_page_id := some "s1", contact_page_id := some "ct1"
    terms_page_id := none, privacy_page_id := some "" }

/-- A deployment whose home page id is the empty string and whose three
optional static pages are all unset. -/
def cfgW10 : Config :=
  { systeme_api_key := "k", systeme_api_base := "https://api.systeme.io"
    systeme_website_id := "w"
    home_page_id := some "", categories_page_id := some "c1"
    products_page_id := some "p1", bundles_page_id := some "b1"
    search_page_id := some "s1", contact_page_id := none
    terms_page_id := none, privacy_page_id := none }

/-- A renderer whose every function returns a snippet. -/
def rendererOk : Renderer :=
  { get_featured_categories_html := Except.ok "FC"
    get_featured_products_html := Except.ok "FP"
    get_featured_bundles_html := Except.ok "FB"
    get_all_categories_html := Except.ok "AC"
    get_bundles_page_html := Except.ok "BP" }

/-- A renderer whose `get_featured_categories_html` raises. -/
def rendererFCBoom : Renderer :=
  { get_featured_categories_html := Except.error (PyExn.exn "ValueError" "bad featured category")
    get_featured_products_html := Except.ok "FP"
    get_featured_bundles_html := Except.ok "FB"
    get_all_categories_html := Except.ok "AC"
    get_bundles_page_html := Except.ok "BP" }

/-- A renderer whose `get_featured_products_html` raises. -/
def rendererFPBoom : Renderer :=
  { get_featured_categories_html := Except.ok "FC"
    get_featured_products_html := Except.error (PyExn.exn "KeyError" "price")
    get_featured_bundles_html := Except.ok "FB"
    get_all_categories_html := Except.ok "AC"
    get_bundles_page_html := Except.ok "BP" }

/-- A renderer whose `get_featured_bundles_html` raises. -/
def rendererFBBoom : Renderer :=
  { get_featured_categories_html := Except.ok "FC"
    get_featured_products_html := Except.ok "FP"
    get_featured_bundles_html := Except.error (PyExn.exn "TypeError" "bundle is not a dict")
    get_all_categories_html := Except.ok "AC"
    get_bundles_page_html := Except.ok "BP" }

/-- A renderer whose `get_bundles_page_html` raises. -/
def rendererBPBoom : Renderer :=
  { get_featured_categories_html := Except.ok "FC"
    get_featured_products_html := Except.ok "FP"
    get_featured_bundles_html := Except.ok "FB"
    get_all_categories_html := Except.ok "AC"
    get_bundles_page_html := Except.error (PyExn.exn "IndexError" "no bundles") }

/-- A renderer whose `get_all_categories_html` raises. -/
def rendererCatBoom : Renderer :=
  { get_featured_categories_html := Except.ok "FC"
    get_featured_products_html := Except.ok "FP"
    get_featured_bundles_html := Except.ok "FB"
    get_all_categories_html := Except.error (PyExn.exn "ValueError" "bad category document")
    get_bundles_page_html := Except.ok "BP" }

/-- An HTTP layer on which every request raises a connection error. -/
def httpBoom : HttpRequest → Except PyExn Response :=
  fun _ => Except.error (PyExn.exn "ConnectionError" "connection refused")

/-- An HTTP layer that answers every request with `200 OK`. -/
def httpOk200 : HttpRequest → Except PyExn Response :=
  fun _ => Except.ok { status_code := 200, text := "ok" }

/-- An HTTP layer that answers every request with a `500`. -/
def httpErr500 : HttpRequest → Except PyExn Response :=
  fun _ => Except.ok { status_code := 500, text := "server error" }

/-- An environment with the API key unset. -/
def envNoKey : Env :=
  { SERVICE_ACCOUNT_PATH := some "/keys/sa.json"
    SYSTEME_API_KEY := none, SYSTEME_API_BASE := none
    SYSTEME_WEBSITE_ID := some "w"
    SYSTEME_HOME_PAGE_ID := some "h1", SYSTEME_CATEGORIES_PAGE_ID := some "c1"
    SYSTEME_PRODUCTS_PAGE_ID := some "p1", SYSTEME_BUNDLES_PAGE_ID := some "b1"
    SYSTEME_SEARCH_PAGE_ID := some "s1", SYSTEME_CONTACT_PAGE_ID := none
    SYSTEME_TERMS_PAGE_ID := none, SYSTEME_PRIVACY_PAGE_ID := none }

/-- An environment with key and website id set and a credential path that
will not exist. -/
def envNoCred : Env :=
  { SERVICE_ACCOUNT_PATH := some "/keys/missing.json"
    SYSTEME_API_KEY := some "k", SYSTEME_API_BASE := none
    SYSTEME_WEBSITE_ID := some "w"
    SYSTEME_HOME_PAGE_ID := some "h1", SYSTEME_CATEGORIES_PAGE_ID := some "c1"
    SYSTEME_PRODUCTS_PAGE_ID := some "p1", SYSTEME_BUNDLES_PAGE_ID := some "b1"
    SYSTEME_SEARCH_PAGE_ID := some "s1", SYSTEME_CONTACT_PAGE_ID := none
    SYSTEME_TERMS_PAGE_ID := none, SYSTEME_PRIVACY_PAGE_ID := none }

/-- A filesystem on which no path exists. -/
def noFile : String → Bool := fun _ => false

/-! ### Helper lemmas about the trace filters and the individual steps -/

@[simp] theorem callsOf_nil : callsOf [] = [] := rfl

@[simp] theorem callsOf_cons_print (s : String) (tr : List Event) :
    callsOf (Event.print s :: tr) = callsOf tr := rfl

@[simp] theorem callsOf_cons_render (n : String) (tr : List Event) :
    callsOf (Event.render n :: tr) = callsOf tr := rfl

@[simp] theorem callsOf_cons_call (p : Option String) (tr : List Event) :
    callsOf (Event.call p :: tr) = p :: callsOf tr := rfl

@[simp] theorem callsOf_cons_request (q : HttpRequest) (tr : List Event) :
    callsOf (Event.request q :: tr) = callsOf tr := rfl

@[simp] theorem callsOf_append (a b : List Event) :
    callsOf (a ++ b) = callsOf a ++ callsOf b := by
  simp [callsOf]

@[simp] theorem requestsOf_nil : requestsOf [] = [] := rfl

@[simp] theorem requestsOf_cons_print (s : String) (tr : List Event) :
    requestsOf (Event.print s :: tr) = requestsOf tr := rfl

@[simp] theorem requestsOf_cons_render (n : String) (tr : List Event) :
    requestsOf (Event.render n :: tr) = requestsOf tr := rfl

@[simp] theorem requestsOf_cons_call (p : Option String) (tr : List Event) :
    requestsOf (Event.call p :: tr) = requestsOf tr := rfl

@[simp] theorem requestsOf_cons_request (q : HttpRequest) (tr : List Event) :
    requestsOf (Event.request q :: tr) = q :: requestsOf tr := rfl

@[simp] theorem requestsOf_append (a b : List Event) :
    requestsOf (a ++ b) = requestsOf a ++ requestsOf b := by
  simp [requestsOf]

@[simp] theorem rendersOf_nil : rendersOf [] = [] := rfl

@[simp] theorem rendersOf_cons_print (s : String) (tr : List Event) :
    rendersOf (Event.print s :: tr) = rendersOf tr := rfl

@[simp] theorem rendersOf_cons_render (n : String) (tr : List Event) :
    rendersOf (Event.render n :: tr) = n :: rendersOf tr := rfl

@[simp] theorem rendersOf_cons_call (p : Option String) (tr : List Event) :
    rendersOf (Event.call p :: tr) = rendersOf tr := rfl

@[simp] theorem rendersOf_cons_request (q : HttpRequest) (tr : List Event) :
    rendersOf (Event.request q :: tr) = rendersOf tr := rfl

@[simp] theorem rendersOf_append (a b : List Event) :
    rendersOf (a ++ b) = rendersOf a ++ rendersOf b := by
  simp [rendersOf]

theorem update_page_snd (cfg : Config) (http : HttpRequest → Except PyExn Response)
    (pid : Option String) (html : String) :
    (update_page cfg http pid html).2 = Except.ok () := by
  simp only [update_page]
  split
  · rfl
  · split
    · split <;> rfl
    · rfl

theorem callsOf_update_page (cfg : Config) (http : HttpRequest → Except PyExn Response)
    (pid : Option String) (html : String) :
    callsOf (update_page cfg http pid html).1 = [pid] := by
  simp only [update_page]
  split
  · simp
  · split
    · split <;> simp
    · simp

theorem requestsOf_update_page (cfg : Config) (http : HttpRequest → Except PyExn Response)
    (pid : Option String) (html : String) :
    requestsOf (update_page cfg http pid html).1 =
      if falsy pid then [] else [page_put_request cfg (pid.getD "") html] := by
  simp only [update_page]
  split
  · simp [*]
  · split
    · split <;> simp [*]
    · simp [*]

theorem rendersOf_update_page (cfg : Config) (http : HttpRequest → Except PyExn Response)
    (pid : Option String) (html : String) :
    rendersOf (update_page cfg http pid html).1 = [] := by
  simp only [update_page]
  split
  · simp
  · split
    · split <;> simp
    · simp

theorem rendersOf_contactStep (cfg : Config) (http : HttpRequest → Except PyExn Response) :
    rendersOf (contactStep cfg http).1 = [] := by
  simp only [contactStep]
  split <;> simp [rendersOf_update_page]

theorem rendersOf_termsStep (cfg : Config) (http : HttpRequest → Except PyExn Response) :
    rendersOf (termsStep cfg http).1 = [] := by
  simp only [termsStep]
  split <;> simp [rendersOf_update_page]

theorem rendersOf_privacyStep (cfg : Config) (http : HttpRequest → Except PyExn Response) :
    rendersOf (privacyStep cfg http).1 = [] := by
  simp only [privacyStep]
  split <;> simp [rendersOf_update_page]

theorem build_home_page_html_err1 (r : Renderer) (e : PyExn)
    (h : r.get_featured_categories_html = Except.error e) :
    build_home_page_html r =
      ([Event.render "get_featured_categories_html"], Except.error e) := by
  simp [build_home_page_html, h]

theorem build_home_page_html_err2 (r : Renderer) (fc : String) (e : PyExn)
    (h1 : r.get_featured_categories_html = Except.ok fc)
    (h2 : r.get_featured_products_html = Except.error e) :
    build_home_page_html r =
      ([Event.render "get_featured_categories_html",
        Event.render "get_featured_products_html"], Except.error e) := by
  simp [build_home_page_html, h1, h2]

theorem build_home_page_html_err3 (r : Renderer) (fc fp : String) (e : PyExn)
    (h1 : r.get_featured_categories_html = Except.ok fc)
    (h2 : r.get_featured_products_html = Except.ok fp)
    (h3 : r.get_featured_bundles_html = Except.error e) :
    build_home_page_html r =
      ([Event.render "get_featured_categories_html",
        Event.render "get_featured_products_html",
        Event.render "get_featured_bundles_html"], Except.error e) := by
  simp [build_home_page_html, h1, h2, h3]

theorem build_bundles_page_html_err (r : Renderer) (e : PyExn)
    (h : r.get_bundles_page_html = Except.error e) :
    build_bundles_page_html r =
      ([Event.render "get_bundles_page_html"], Except.error e) := by
  simp [build_bundles_page_html, h]

theorem build_home_page_html_ok (r : Renderer) (fc fp fb : String)
    (h1 : r.get_featured_categories_html = Except.ok fc)
    (h2 : r.get_featured_products_html = Except.ok fp)
    (h3 : r.get_featured_bundles_html = Except.ok fb) :
    build_home_page_html r =
      ([Event.render "get_featured_categories_html",
        Event.render "get_featured_products_html",
        Event.render "get_featured_bundles_html"],
       Except.ok (homeHtmlTemplate fc fp fb)) := by
  simp [build_home_page_html, h1, h2, h3]

theorem build_categories_page_html_ok (r : Renderer) (ac : String)
    (h : r.get_all_categories_html = Except.ok ac) :
    build_categories_page_html r =
      ([Event.render "get_all_categories_html"],
       Except.ok (categoriesHtmlTemplate ac)) := by
  simp [build_categories_page_html, h]

theorem build_categories_page_html_err (r : Renderer) (e : PyExn)
    (h : r.get_all_categories_html = Except.error e) :
    build_categories_page_html r =
      ([Event.render "get_all_categories_html"], Except.error e) := by
  simp [build_categories_page_html, h]

theorem build_bundles_page_html_ok (r : Renderer) (bh : String)
    (h : r.get_bundles_page_html = Except.ok bh) :
    build_bundles_page_html r =
      ([Event.render "get_bundles_page_html"],
       Except.ok (bundlesHtmlTemplate bh)) := by
  simp [build_bundles_page_html, h]

theorem contactStep_snd (cfg : Config) (http : HttpRequest → Except PyExn Response) :
    (contactStep cfg http).2 = Except.ok () := by
  simp only [contactStep]
  split
  · rfl
  · exact update_page_snd ..

theorem termsStep_snd (cfg : Config) (http : HttpRequest → Except PyExn Response) :
    (termsStep cfg http).2 = Except.ok () := by
  simp only [termsStep]
  split
  · rfl
  · exact update_page_snd ..

theorem privacyStep_snd (cfg : Config) (http : HttpRequest → Except PyExn Response) :
    (privacyStep cfg http).2 = Except.ok () := by
  simp only [privacyStep]
  split
  · rfl
  · exact update_page_snd ..

theorem callsOf_contactStep (cfg : Config) (http : HttpRequest → Except PyExn Response) :
    callsOf (contactStep cfg http).1 =
      if falsy cfg.contact_page_id then [] else [cfg.contact_page_id] := by
  simp only [contactStep]
  split <;> simp_all [callsOf_update_page]

theorem callsOf_termsStep (cfg : Config) (http : HttpRequest → Except PyExn Response) :
    callsOf (termsStep cfg http).1 =
      if falsy cfg.terms_page_id then [] else [cfg.terms_page_id] := by
  simp only [termsStep]
  split <;> simp_all [callsOf_update_page]

theorem callsOf_privacyStep (cfg : Config) (http : HttpRequest → Except PyExn Response) :
    callsOf (privacyStep cfg http).1 =
      if falsy cfg.privacy_page_id then [] else [cfg.privacy_page_id] := by
  simp only [privacyStep]
  split <;> simp_all [callsOf_update_page]

theorem requestsOf_contactStep (cfg : Config) (http : HttpRequest → Except PyExn Response) :
    requestsOf (contactStep cfg http).1 =
      if falsy cfg.contact_page_id then []
      else [page_put_request cfg (cfg.contact_page_id.getD "")
              (build_static_page_html "Contact" contactBody)] := by
  simp only [contactStep]
  split <;> simp_all [requestsOf_update_page]

theorem requestsOf_termsStep (cfg : Config) (http : HttpRequest → Except PyExn Response) :
    requestsOf (termsStep cfg http).1 =
      if falsy cfg.terms_page_id then []
      else [page_put_request cfg (cfg.terms_page_id.getD "")
              (build_static_page_html "Terms & Conditions" termsBody)] := by
  simp only [termsStep]
  split <;> simp_all [requestsOf_update_page]

theorem requestsOf_privacyStep (cfg : Config) (http : HttpRequest → Except PyExn Response) :
    requestsOf (privacyStep cfg http).1 =
      if falsy cfg.privacy_page_id then []
      else [page_put_request cfg (cfg.privacy_page_id.getD "")
              (build_static_page_html "Privacy Policy" privacyBody)] := by
  simp only [privacyStep]
  split <;> simp_all [requestsOf_update_page]

theorem getLast?_append_right {α : Type} (A B : List α) (x : α)
    (h : B.getLast? = some x) : (A ++ B).getLast? = some x := by
  rw [List.getLast?_append_of_ne_nil]
  · exact h
  · intro hB
    rw [hB] at h
    exact Option.noConfusion h

theorem getLast?_cons_right {α : Type} (a : α) (L : List α) (x : α)
    (h : L.getLast? = some x) : (a :: L).getLast? = some x :=
  getLast?_append_right [a] L x h

theorem falsy_eq_false_of_ne (s : String) (hs : s ≠ "") : falsy (some s) = false := by
  simp only [falsy]
  cases hb : s.isEmpty
  · rfl
  · exact absurd ((String.isEmpty_iff s).mp hb) hs

/-! ### Claim theorems -/

/-- C2: for every non-empty page identifier and every HTML string,
`_update_page` issues exactly one HTTP PUT, whose URL is
`{base}/sites/{website_id}/pages/{page_id}`, whose body is the JSON
encoding of `{"content": html}`, whose headers are exactly
`Content-Type: application/json` and `X-API-Key: <configured key>`, and
whose timeout is 60 seconds — whatever the HTTP layer then does. -/
theorem update_page_sends_single_put (cfg : Config)
    (http : HttpRequest → Except PyExn Response) (s html : String) (hs : s ≠ "") :
    requestsOf (update_page cfg http (some s) html).1 =
      [{ method := "PUT"
         url := cfg.systeme_api_base ++ "/sites/" ++ cfg.systeme_website_id ++ "/pages/" ++ s
         headers := [("Content-Type", "application/json"), ("X-API-Key", cfg.systeme_api_key)]
         body := jsonDumpsContent html
         timeout := 60 }] := by
  rw [requestsOf_update_page, if_neg]
  · simp [page_put_request, systeme_headers]
  · simp [falsy_eq_false_of_ne s hs]

theorem update_page_sends_single_put_witness :
    requestsOf (update_page cfgW httpOk200 (some "h1") "<p>hello</p>").1 =
      [{ method := "PUT"
         url := cfgW.systeme_api_base ++ "/sites/" ++ cfgW.systeme_website_id ++ "/pages/" ++ "h1"
         headers := [("Content-Type", "application/json"), ("X-API-Key", cfgW.systeme_api_key)]
         body := jsonDumpsContent "<p>hello</p>"
         timeout := 60 }] :=
  update_page_sends_single_put cfgW httpOk200 "h1" "<p>hello</p>" (by decide)

/-- C3: for every HTML string, when the page identifier is falsy (`None`
or empty) `_update_page` performs no network call and returns normally,
only logging the skip. -/
theorem update_page_skips_falsy_id (cfg : Config)
    (http : HttpRequest → Except PyExn Response) (page_id : Option String)
    (html : String) (h : falsy page_id = true) :
    update_page cfg http page_id html =
      ([Event.call page_id, Event.print skipMsg], Except.ok ()) ∧
    requestsOf (update_page cfg http page_id html).1 = [] := by
  constructor
  · simp [update_page, h]
  · simp [requestsOf_update_page, h]

theorem update_page_skips_falsy_id_witness :
    (update_page cfgW httpBoom none "<p>x</p>" =
      ([Event.call none, Event.print skipMsg], Except.ok ()) ∧
    requestsOf (update_page cfgW httpBoom none "<p>x</p>").1 = []) :=
  update_page_skips_falsy_id cfgW httpBoom none "<p>x</p>" (by decide)

/-- C4: whatever response the HTTP layer returns, `_update_page` returns
normally: a 2xx status is logged as success and any other status is
logged as a failure (with status and body), never raising. -/
theorem update_page_response_never_raises (cfg : Config)
    (http : HttpRequest → Except PyExn Response) (s html : String) (resp : Response)
    (hs : s ≠ "")
    (hr : http (page_put_request cfg s html) = Except.ok resp) :
    update_page cfg http (some s) html =
      ([Event.call (some s), Event.request (page_put_request cfg s html),
        Event.print (if 200 ≤ resp.status_code ∧ resp.status_code < 300
          then updatedMsg s else failedMsg s resp)], Except.ok ()) := by
  have hf : falsy (some s) = false := falsy_eq_false_of_ne s hs
  simp only [update_page, hf, Bool.false_eq_true, if_false, Option.getD_some, hr]
  split <;> simp_all

theorem update_page_response_never_raises_witness :
    update_page cfgW httpErr500 (some "h1") "<p>x</p>" =
      ([Event.call (some "h1"),
        Event.request (page_put_request cfgW "h1" "<p>x</p>"),
        Event.print (if 200 ≤ (500 : Nat) ∧ (500 : Nat) < 300
          then updatedMsg "h1"
          else failedMsg "h1" { status_code := 500, text := "server error" })],
       Except.ok ()) :=
  update_page_response_never_raises cfgW httpErr500 "h1" "<p>x</p>"
    { status_code := 500, text := "server error" } (by decide) rfl

/-- C5: every exception the HTTP request raises inside `_update_page` is
caught and logged; the function returns normally and no exception
propagates to the caller. -/
theorem update_page_catches_exceptions (cfg : Config)
    (http : HttpRequest → Except PyExn Response) (s html : String) (e : PyExn)
    (hs : s ≠ "")
    (hr : http (page_put_request cfg s html) = Except.error e) :
    update_page cfg http (some s) html =
      ([Event.call (some s), Event.request (page_put_request cfg s html),
        Event.print (errorMsg s e)], Except.ok ()) ∧
    (update_page cfg http (some s) html).2 = Except.ok () := by
  have hf : falsy (some s) = false := falsy_eq_false_of_ne s hs
  constructor
  · simp only [update_page, hf, Bool.false_eq_true, if_false, Option.getD_some, hr]
  · exact update_page_snd ..

theorem update_page_catches_exceptions_witness :
    (update_page cfgW httpBoom (some "h1") "<p>x</p>" =
      ([Event.call (some "h1"),
        Event.request (page_put_request cfgW "h1" "<p>x</p>"),
        Event.print (errorMsg "h1" (PyExn.exn "ConnectionError" "connection refused"))],
       Except.ok ()) ∧
    (update_page cfgW httpBoom (some "h1") "<p>x</p>").2 = Except.ok ()) :=
  update_page_catches_exceptions cfgW httpBoom "h1" "<p>x</p>"
    (PyExn.exn "ConnectionError" "connection refused") (by decide) rfl

/-- C6: when `SYSTEME_API_KEY` or `SYSTEME_WEBSITE_ID` is missing (falsy),
importing the module raises `RuntimeError("Systeme.io env vars missing")`
and the run's trace is empty: no page is built or updated first. -/
theorem import_missing_env_vars_raises (env : Env) (pathExists : String → Bool)
    (r : Renderer) (http : HttpRequest → Except PyExn Response)
    (h : falsy env.SYSTEME_API_KEY = true ∨ falsy env.SYSTEME_WEBSITE_ID = true) :
    run_publisher env pathExists r http =
      ([], Except.error (PyExn.runtimeError "Systeme.io env vars missing")) := by
  have hb : (falsy env.SYSTEME_API_KEY || falsy env.SYSTEME_WEBSITE_ID) = true := by
    rcases h with h | h <;> simp [h]
  simp [run_publisher, module_init, hb]

theorem import_missing_env_vars_raises_witness :
    run_publisher envNoKey noFile rendererOk httpOk200 =
      ([], Except.error (PyExn.runtimeError "Systeme.io env vars missing")) :=
  import_missing_env_vars_raises envNoKey noFile rendererOk httpOk200 (Or.inl (by decide))

/-- C8: when the service-account credential file does not exist,
constructing the `FirestoreClient` at import time raises a `RuntimeError`
and the run's trace is empty: no page is built or updated first. -/
theorem init_missing_credential_file_raises (env : Env) (pathExists : String → Bool)
    (r : Renderer) (http : HttpRequest → Except PyExn Response)
    (hk : falsy env.SYSTEME_API_KEY = false) (hw : falsy env.SYSTEME_WEBSITE_ID = false)
    (hp : pathExists (env.SERVICE_ACCOUNT_PATH.getD defaultServiceAccountPath) = false) :
    run_publisher env pathExists r http =
      ([], Except.error (PyExn.runtimeError
        ("Service account file not found: " ++
          env.SERVICE_ACCOUNT_PATH.getD defaultServiceAccountPath))) := by
  simp [run_publisher, module_init, hk, hw, firestoreClient_init, hp]

theorem init_missing_credential_file_raises_witness :
    run_publisher envNoCred noFile rendererOk httpOk200 =
      ([], Except.error (PyExn.runtimeError
        ("Service account file not found: " ++
          envNoCred.SERVICE_ACCOUNT_PATH.getD defaultServiceAccountPath))) :=
  init_missing_credential_file_raises envNoCred noFile rendererOk httpOk200
    (by decide) (by decide) rfl

/-- C1: for every configuration, `publish_all()` calls `_update_page` for
each of the five mandatory pages (home, categories index, products index,
bundles index, search) in that order whatever the HTTP layer does to the
earlier updates, and additionally for each of the three optional static
pages (contact, terms, privacy) exactly when that page's identifier is
configured (truthy), in that sequential order. -/
theorem publish_all_attempts_all_pages (cfg : Config) (r : Renderer)
    (http : HttpRequest → Except PyExn Response) (fc fp fb ac bh : String)
    (h1 : r.get_featured_categories_html = Except.ok fc)
    (h2 : r.get_featured_products_html = Except.ok fp)
    (h3 : r.get_featured_bundles_html = Except.ok fb)
    (h4 : r.get_all_categories_html = Except.ok ac)
    (h5 : r.get_bundles_page_html = Except.ok bh) :
    callsOf (publish_all cfg r http).1 =
      [cfg.home_page_id, cfg.categories_page_id, cfg.products_page_id,
       cfg.bundles_page_id, cfg.search_page_id]
      ++ (if falsy cfg.contact_page_id then [] else [cfg.contact_page_id])
      ++ (if falsy cfg.terms_page_id then [] else [cfg.terms_page_id])
      ++ (if falsy cfg.privacy_page_id then [] else [cfg.privacy_page_id]) := by
  simp [publish_all, seqE, build_home_page_html_ok r fc fp fb h1 h2 h3,
    build_categories_page_html_ok r ac h4, build_bundles_page_html_ok r bh h5,
    update_page_snd, contactStep_snd, termsStep_snd, privacyStep_snd,
    callsOf_update_page, callsOf_contactStep, callsOf_termsStep, callsOf_privacyStep]

theorem publish_all_attempts_all_pages_witness :
    callsOf (publish_all cfgW rendererOk httpBoom).1 =
      [cfgW.home_page_id, cfgW.categories_page_id, cfgW.products_page_id,
       cfgW.bundles_page_id, cfgW.search_page_id]
      ++ (if falsy cfgW.contact_page_id then [] else [cfgW.contact_page_id])
      ++ (if falsy cfgW.terms_page_id then [] else [cfgW.terms_page_id])
      ++ (if falsy cfgW.privacy_page_id then [] else [cfgW.privacy_page_id]) :=
  publish_all_attempts_all_pages cfgW rendererOk httpBoom "FC" "FP" "FB" "AC" "BP"
    rfl rfl rfl rfl rfl

/-- C7: whatever the individual page updates do (any statuses, any raised
network exceptions), `publish_all()` returns normally with no value and
its last action is printing the publish-cycle-complete message. -/
theorem publish_all_reports_completion (cfg : Config) (r : Renderer)
    (http : HttpRequest → Except PyExn Response) (fc fp fb ac bh : String)
    (h1 : r.get_featured_categories_html = Except.ok fc)
    (h2 : r.get_featured_products_html = Except.ok fp)
    (h3 : r.get_featured_bundles_html = Except.ok fb)
    (h4 : r.get_all_categories_html = Except.ok ac)
    (h5 : r.get_bundles_page_html = Except.ok bh) :
    (publish_all cfg r http).2 = Except.ok () ∧
    (publish_all cfg r http).1.getLast? = some (Event.print publishCompleteMsg) := by
  constructor
  · simp [publish_all, seqE, build_home_page_html_ok r fc fp fb h1 h2 h3,
      build_categories_page_html_ok r ac h4, build_bundles_page_html_ok r bh h5,
      update_page_snd, contactStep_snd, termsStep_snd, privacyStep_snd]
  · simp only [publish_all, seqE, build_home_page_html_ok r fc fp fb h1 h2 h3,
      build_categories_page_html_ok r ac h4, build_bundles_page_html_ok r bh h5,
      update_page_snd, contactStep_snd, termsStep_snd, privacyStep_snd]
    repeat
      first
      | rfl
      | apply getLast?_cons_right
      | apply getLast?_append_right

theorem publish_all_reports_completion_witness :
    ((publish_all cfgW rendererOk httpBoom).2 = Except.ok () ∧
    (publish_all cfgW rendererOk httpBoom).1.getLast? =
      some (Event.print publishCompleteMsg)) :=
  publish_all_reports_completion cfgW rendererOk httpBoom "FC" "FP" "FB" "AC" "BP"
    rfl rfl rfl rfl rfl

/-- C9: whichever HTML-building renderer call raises — any of the three
home-page calls, the categories-page call, or the bundles-page call — the
exception propagates out of `publish_all()`: the trace ends at the failing
renderer call, only the updates of the pages already built were attempted,
and the completion message is never printed.  Only the HTTP request inside
`_update_page` is protected; build steps are not. -/
theorem build_exception_aborts_publish (cfg : Config)
    (http : HttpRequest → Except PyExn Response) :
    (∀ (r : Renderer) (e : PyExn),
      r.get_featured_categories_html = Except.error e →
      (publish_all cfg r http).2 = Except.error e ∧
      callsOf (publish_all cfg r http).1 = [] ∧
      (publish_all cfg r http).1.getLast? =
        some (Event.render "get_featured_categories_html")) ∧
    (∀ (r : Renderer) (fc : String) (e : PyExn),
      r.get_featured_categories_html = Except.ok fc →
      r.get_featured_products_html = Except.error e →
      (publish_all cfg r http).2 = Except.error e ∧
      callsOf (publish_all cfg r http).1 = [] ∧
      (publish_all cfg r http).1.getLast? =
        some (Event.render "get_featured_products_html")) ∧
    (∀ (r : Renderer) (fc fp : String) (e : PyExn),
      r.get_featured_categories_html = Except.ok fc →
      r.get_featured_products_html = Except.ok fp →
      r.get_featured_bundles_html = Except.error e →
      (publish_all cfg r http).2 = Except.error e ∧
      callsOf (publish_all cfg r http).1 = [] ∧
      (publish_all cfg r http).1.getLast? =
        some (Event.render "get_featured_bundles_html")) ∧
    (∀ (r : Renderer) (fc fp fb : String) (e : PyExn),
      r.get_featured_categories_html = Except.ok fc →
      r.get_featured_products_html = Except.ok fp →
      r.get_featured_bundles_html = Except.ok fb →
      r.get_all_categories_html = Except.error e →
      (publish_all cfg r http).2 = Except.error e ∧
      callsOf (publish_all cfg r http).1 = [cfg.home_page_id] ∧
      (publish_all cfg r http).1.getLast? =
        some (Event.render "get_all_categories_html")) ∧
    (∀ (r : Renderer) (fc fp fb ac : String) (e : PyExn),
      r.get_featured_categories_html = Except.ok fc →
      r.get_featured_products_html = Except.ok fp →
      r.get_featured_bundles_html = Except.ok fb →
      r.get_all_categories_html = Except.ok ac →
      r.get_bundles_page_html = Except.error e →
      (publish_all cfg r http).2 = Except.error e ∧
      callsOf (publish_all cfg r http).1 =
        [cfg.home_page_id, cfg.categories_page_id, cfg.products_page_id] ∧
      (publish_all cfg r http).1.getLast? =
        some (Event.render "get_bundles_page_html")) := by
  refine ⟨?_, ?_, ?_, ?_, ?_⟩
  · intro r e h
    refine ⟨?_, ?_, ?_⟩
    · simp [publish_all, seqE, build_home_page_html_err1 r e h]
    · simp [publish_all, seqE, build_home_page_html_err1 r e h]
    · simp only [publish_all, seqE, build_home_page_html_err1 r e h]
      repeat
        first
        | rfl
        | apply getLast?_cons_right
        | apply getLast?_append_right
  · intro r fc e h1 h2
    refine ⟨?_, ?_, ?_⟩
    · simp [publish_all, seqE, build_home_page_html_err2 r fc e h1 h2]
    · simp [publish_all, seqE, build_home_page_html_err2 r fc e h1 h2]
    · simp only [publish_all, seqE, build_home_page_html_err2 r fc e h1 h2]
      repeat
        first
        | rfl
        | apply getLast?_cons_right
        | apply getLast?_append_right
  · intro r fc fp e h1 h2 h3
    refine ⟨?_, ?_, ?_⟩
    · simp [publish_all, seqE, build_home_page_html_err3 r fc fp e h1 h2 h3]
    · simp [publish_all, seqE, build_home_page_html_err3 r fc fp e h1 h2 h3]
    · simp only [publish_all, seqE, build_home_page_html_err3 r fc fp e h1 h2 h3]
      repeat
        first
        | rfl
        | apply getLast?_cons_right
        | apply getLast?_append_right
  · intro r fc fp fb e h1 h2 h3 h4
    refine ⟨?_, ?_, ?_⟩
    · simp [publish_all, seqE, build_home_page_html_ok r fc fp fb h1 h2 h3,
        build_categories_page_html_err r e h4, update_page_snd]
    · simp [publish_all, seqE, build_home_page_html_ok r fc fp fb h1 h2 h3,
        build_categories_page_html_err r e h4, update_page_snd, callsOf_update_page]
    · simp only [publish_all, seqE, build_home_page_html_ok r fc fp fb h1 h2 h3,
        build_categories_page_html_err r e h4, update_page_snd]
      repeat
        first
        | rfl
        | apply getLast?_cons_right
        | apply getLast?_append_right
  · intro r fc fp fb ac e h1 h2 h3 h4 h5
    refine ⟨?_, ?_, ?_⟩
    · simp [publish_all, seqE, build_home_page_html_ok r fc fp fb h1 h2 h3,
        build_categories_page_html_ok r ac h4, build_bundles_page_html_err r e h5,
        update_page_snd]
    · simp [publish_all, seqE, build_home_page_html_ok r fc fp fb h1 h2 h3,
        build_categories_page_html_ok r ac h4, build_bundles_page_html_err r e h5,
        update_page_snd, callsOf_update_page]
    · simp only [publish_all, seqE, build_home_page_html_ok r fc fp fb h1 h2 h3,
        build_categories_page_html_ok r ac h4, build_bundles_page_html_err r e h5,
        update_page_snd]
      repeat
        first
        | rfl
        | apply getLast?_cons_right
        | apply getLast?_append_right

theorem build_exception_aborts_publish_witness :
    ((publish_all cfgW rendererFCBoom httpOk200).2 =
        Except.error (PyExn.exn "ValueError" "bad featured category") ∧
      callsOf (publish_all cfgW rendererFCBoom httpOk200).1 = [] ∧
      (publish_all cfgW rendererFCBoom httpOk200).1.getLast? =
        some (Event.render "get_featured_categories_html")) ∧
    ((publish_all cfgW rendererFPBoom httpOk200).2 =
        Except.error (PyExn.exn "KeyError" "price") ∧
      callsOf (publish_all cfgW rendererFPBoom httpOk200).1 = [] ∧
      (publish_all cfgW rendererFPBoom httpOk200).1.getLast? =
        some (Event.render "get_featured_products_html")) ∧
    ((publish_all cfgW rendererFBBoom httpOk200).2 =
        Except.error (PyExn.exn "TypeError" "bundle is not a dict") ∧
      callsOf (publish_all cfgW rendererFBBoom httpOk200).1 = [] ∧
      (publish_all cfgW rendererFBBoom httpOk200).1.getLast? =
        some (Event.render "get_featured_bundles_html")) ∧
    ((publish_all cfgW rendererCatBoom httpOk200).2 =
        Except.error (PyExn.exn "ValueError" "bad category document") ∧
      callsOf (publish_all cfgW rendererCatBoom httpOk200).1 = [cfgW.home_page_id] ∧
      (publish_all cfgW rendererCatBoom httpOk200).1.getLast? =
        some (Event.render "get_all_categories_html")) ∧
    ((publish_all cfgW rendererBPBoom httpOk200).2 =
        Except.error (PyExn.exn "IndexError" "no bundles") ∧
      callsOf (publish_all cfgW rendererBPBoom httpOk200).1 =
        [cfgW.home_page_id, cfgW.categories_page_id, cfgW.products_page_id] ∧
      (publish_all cfgW rendererBPBoom httpOk200).1.getLast? =
        some (Event.render "get_bundles_page_html")) := by
  refine ⟨?_, ?_, ?_, ?_, ?_⟩
  · exact (build_exception_aborts_publish cfgW httpOk200).1 rendererFCBoom
      (PyExn.exn "ValueError" "bad featured category") rfl
  · exact (build_exception_aborts_publish cfgW httpOk200).2.1 rendererFPBoom "FC"
      (PyExn.exn "KeyError" "price") rfl rfl
  · exact (build_exception_aborts_publish cfgW httpOk200).2.2.1 rendererFBBoom "FC" "FP"
      (PyExn.exn "TypeError" "bundle is not a dict") rfl rfl rfl
  · exact (build_exception_aborts_publish cfgW httpOk200).2.2.2.1 rendererCatBoom
      "FC" "FP" "FB" (PyExn.exn "ValueError" "bad category document") rfl rfl rfl rfl
  · exact (build_exception_aborts_publish cfgW httpOk200).2.2.2.2 rendererBPBoom
      "FC" "FP" "FB" "AC" (PyExn.exn "IndexError" "no bundles") rfl rfl rfl rfl rfl

/-- C10: for every configuration whatsoever, all five mandatory pages'
HTML is built — the five renderer calls appear in the trace, in order,
whatever page ids are falsy — and `_update_page` is called for every
mandatory page, while an HTTP request is issued for a page exactly when
its id is truthy: a falsy mandatory id still gets its build and its
`_update_page` call but no network request.  An optional static page with
a falsy id contributes nothing at all: its branch is `([], ok)`, so its
HTML is never built and `_update_page` is never called for it. -/
theorem falsy_mandatory_builds_but_skips (cfg : Config) (r : Renderer)
    (http : HttpRequest → Except PyExn Response) (fc fp fb ac bh : String)
    (h1 : r.get_featured_categories_html = Except.ok fc)
    (h2 : r.get_featured_products_html = Except.ok fp)
    (h3 : r.get_featured_bundles_html = Except.ok fb)
    (h4 : r.get_all_categories_html = Except.ok ac)
    (h5 : r.get_bundles_page_html = Except.ok bh) :
    rendersOf (publish_all cfg r http).1 =
      ["get_featured_categories_html", "get_featured_products_html",
       "get_featured_bundles_html", "get_all_categories_html",
       "get_bundles_page_html"] ∧
    callsOf (publish_all cfg r http).1 =
      [cfg.home_page_id, cfg.categories_page_id, cfg.products_page_id,
       cfg.bundles_page_id, cfg.search_page_id]
      ++ (if falsy cfg.contact_page_id then [] else [cfg.contact_page_id])
      ++ (if falsy cfg.terms_page_id then [] else [cfg.terms_page_id])
      ++ (if falsy cfg.privacy_page_id then [] else [cfg.privacy_page_id]) ∧
    requestsOf (publish_all cfg r http).1 =
      (if falsy cfg.home_page_id then []
        else [page_put_request cfg (cfg.home_page_id.getD "")
                (homeHtmlTemplate fc fp fb)])
      ++ (if falsy cfg.categories_page_id then []
        else [page_put_request cfg (cfg.categories_page_id.getD "")
                (categoriesHtmlTemplate ac)])
      ++ (if falsy cfg.products_page_id then []
        else [page_put_request cfg (cfg.products_page_id.getD "") products_page_html])
      ++ (if falsy cfg.bundles_page_id then []
        else [page_put_request cfg (cfg.bundles_page_id.getD "") (bundlesHtmlTemplate bh)])
      ++ (if falsy cfg.search_page_id then []
        else [page_put_request cfg (cfg.search_page_id.getD "") search_page_html])
      ++ (if falsy cfg.contact_page_id then []
        else [page_put_request cfg (cfg.contact_page_id.getD "")
                (build_static_page_html "Contact" contactBody)])
      ++ (if falsy cfg.terms_page_id then []
        else [page_put_request cfg (cfg.terms_page_id.getD "")
                (build_static_page_html "Terms & Conditions" termsBody)])
      ++ (if falsy cfg.privacy_page_id then []
        else [page_put_request cfg (cfg.privacy_page_id.getD "")
                (build_static_page_html "Privacy Policy" privacyBody)]) ∧
    (falsy cfg.contact_page_id = true → contactStep cfg http = ([], Except.ok ())) ∧
    (falsy cfg.terms_page_id = true → termsStep cfg http = ([], Except.ok ())) ∧
    (falsy cfg.privacy_page_id = true → privacyStep cfg http = ([], Except.ok ())) := by
  refine ⟨?_, ?_, ?_, ?_, ?_, ?_⟩
  · simp [publish_all, seqE, build_home_page_html_ok r fc fp fb h1 h2 h3,
      build_categories_page_html_ok r ac h4, build_bundles_page_html_ok r bh h5,
      update_page_snd, contactStep_snd, termsStep_snd, privacyStep_snd,
      rendersOf_update_page, rendersOf_contactStep, rendersOf_termsStep,
      rendersOf_privacyStep]
  · simp [publish_all, seqE, build_home_page_html_ok r fc fp fb h1 h2 h3,
      build_categories_page_html_ok r ac h4, build_bundles_page_html_ok r bh h5,
      update_page_snd, contactStep_snd, termsStep_snd, privacyStep_snd,
      callsOf_update_page, callsOf_contactStep, callsOf_termsStep, callsOf_privacyStep]
  · simp [publish_all, seqE, build_home_page_html_ok r fc fp fb h1 h2 h3,
      build_categories_page_html_ok r ac h4, build_bundles_page_html_ok r bh h5,
      update_page_snd, contactStep_snd, termsStep_snd, privacyStep_snd,
      requestsOf_update_page, requestsOf_contactStep, requestsOf_termsStep,
      requestsOf_privacyStep]
  · intro hct
    simp [contactStep, hct]
  · intro htm
    simp [termsStep, htm]
  · intro hpv
    simp [privacyStep, hpv]

theorem falsy_mandatory_builds_but_skips_witness :
    (rendersOf (publish_all cfgW10 rendererOk httpOk200).1 =
      ["get_featured_categories_html", "get_featured_products_html",
       "get_featured_bundles_html", "get_all_categories_html",
       "get_bundles_page_html"] ∧
    callsOf (publish_all cfgW10 rendererOk httpOk200).1 =
      [cfgW10.home_page_id, cfgW10.categories_page_id, cfgW10.products_page_id,
       cfgW10.bundles_page_id, cfgW10.search_page_id]
      ++ (if falsy cfgW10.contact_page_id then [] else [cfgW10.contact_page_id])
      ++ (if falsy cfgW10.terms_page_id then [] else [cfgW10.terms_page_id])
      ++ (if falsy cfgW10.privacy_page_id then [] else [cfgW10.privacy_page_id]) ∧
    requestsOf (publish_all cfgW10 rendererOk httpOk200).1 =
      (if falsy cfgW10.home_page_id then []
        else [page_put_request cfgW10 (cfgW10.home_page_id.getD "")
                (homeHtmlTemplate "FC" "FP" "FB")])
      ++ (if falsy cfgW10.categories_page_id then []
        else [page_put_request cfgW10 (cfgW10.categories_page_id.getD "")
                (categoriesHtmlTemplate "AC")])
      ++ (if falsy cfgW10.products_page_id then []
        else [page_put_request cfgW10 (cfgW10.products_page_id.getD "") products_page_html])
      ++ (if falsy cfgW10.bundles_page_id then []
        else [page_put_request cfgW10 (cfgW10.bundles_page_id.getD "")
                (bundlesHtmlTemplate "BP")])
      ++ (if falsy cfgW10.search_page_id then []
        else [page_put_request cfgW10 (cfgW10.search_page_id.getD "") search_page_html])
      ++ (if falsy cfgW10.contact_page_id then []
        else [page_put_request cfgW10 (cfgW10.contact_page_id.getD "")
                (build_static_page_html "Contact" contactBody)])
      ++ (if falsy cfgW10.terms_page_id then []
        else [page_put_request cfgW10 (cfgW10.terms_page_id.getD "")
                (build_static_page_html "Terms & Conditions" termsBody)])
      ++ (if falsy cfgW10.privacy_page_id then []
        else [page_put_request cfgW10 (cfgW10.privacy_page_id.getD "")
                (build_static_page_html "Privacy Policy" privacyBody)]) ∧
    (falsy cfgW10.contact_page_id = true →
      contactStep cfgW10 httpOk200 = ([], Except.ok ())) ∧
    (falsy cfgW10.terms_page_id = true →
      termsStep cfgW10 httpOk200 = ([], Except.ok ())) ∧
    (falsy cfgW10.privacy_page_id = true →
      privacyStep cfgW10 httpOk200 = ([], Except.ok ()))) :=
  falsy_mandatory_builds_but_skips cfgW10 rendererOk httpOk200 "FC" "FP" "FB" "AC" "BP"
    rfl rfl rfl rfl rfl
